import Mathlib

/-
Verification of the go-serial timeout layer (fork by Serge Reinov).

The development shallowly embeds the timeout-related part of the `serial`
package: the `Timeouts` / `WindowsCommTimeouts` data types, the legacy
translator `ctoFromOpenOptions`, the Windows port operations
(`SetTimeouts`, `Read`, `Write`, `Close`, `PurgeBuffers`,
`ReadWithTimeouts`, `WriteWithTimeouts`) and the non-Windows no-op stubs.

Machine integers are modelled as `Nat`/`Int` with explicit reductions
modulo 2^32 (Go `uint32` conversion) and 2^64 (Go `uint`/`uintptr` range).
Interaction with the operating system is modelled by an explicit
handle-provider oracle (`OsSpec`) threading a state of arbitrary type and
by a trace of the OS calls an operation issues; a Go nil-pointer
dereference is modelled as the `panics` outcome.
-/

namespace GoSerial

/-- Go `uint32` modulus, 2 ^ 32. -/
def U32 : Nat := 4294967296

/-- MAXDWORD, the constant 1 shl 32 - 1 used by `ctoFromOpenOptions`. -/
def MAXDWORD : Nat := 4294967295

/-- Go windows `syscall.InvalidHandle` is the all-ones `uintptr`, 2 ^ 64 - 1. -/
def INVALID_HANDLE : Nat := 18446744073709551615

/-- Conversion `uint32(x)` applied to a Go `int64` value `x`: the low 32 bits
of the two-complement representation, i.e. `x` modulo 2^32 taken
non-negative (the `%` of Lean `Int` is Euclidean, which agrees). -/
def goUint32ofInt (x : Int) : Nat := (x % (4294967296 : Int)).toNat

/-- Mirrors the Go struct `WindowsCommTimeouts` (file with
`ctoFromOpenOptions`): five `uint32` driver timeout fields. -/
structure WindowsCommTimeouts where
  ReadIntervalTimeout : Nat
  ReadTotalTimeoutMultiplier : Nat
  ReadTotalTimeoutConstant : Nat
  WriteTotalTimeoutMultiplier : Nat
  WriteTotalTimeoutConstant : Nat
deriving DecidableEq, Repr

/-- Mirrors `defaultWindowsCommTimeouts`: interval 1 ms, read/write total
constants 100 ms, both multipliers 0. -/
def defaultWindowsCommTimeouts : WindowsCommTimeouts :=
  { ReadIntervalTimeout := 1
    ReadTotalTimeoutMultiplier := 0
    ReadTotalTimeoutConstant := 100
    WriteTotalTimeoutMultiplier := 0
    WriteTotalTimeoutConstant := 100 }

/-- Mirrors the two fields of the Go `OpenOptions` struct that
`ctoFromOpenOptions` reads. Both have Go type `uint` (64-bit on the
windows/amd64 target), modelled as `Nat` values below 2^64. -/
structure OpenOptions where
  InterCharacterTimeout : Nat
  MinimumReadSize : Nat
deriving DecidableEq, Repr

/-- Models `round(float64(n) / 100.0)` — with `round(f) = math.Floor(f +
0.5)` from the source — by its exact rational value `(n + 50) / 100` in
truncating `Nat` division. The floating-point computation agrees with
this exact value for every `n < 2^49`: there `float64(n)` is exact, the
quotient stays below `2^43` so the two IEEE roundings (the division and
the addition of 0.5) each carry absolute error below `2^-10`, while the
exact `n / 100 + 1/2` is either an exact integer (when `n = 100k + 50`:
then `k + 1/2` and `k + 1` are representable and every step is computed
exactly) or at least `1/100` away from the nearest integer, so the
`math.Floor` is unaffected. Beyond `2^53` the float computation can
diverge from the rational value (at `n = 18014398509482050` the program
computes 171798692 where the rational rounding gives 171798693), so every
theorem below that quantifies over the intercharacter input through this
model carries the bound `n < 2^49`. -/
def roundDiv100 (n : Nat) : Nat := (n + 50) / 100

/-- The local `timeoutConstant := uint32(round(float64(ict) / 100.0))`
computed at the top of `ctoFromOpenOptions`. The Go float-to-uint32
conversion on the windows/amd64 gc toolchain truncates to int64 (exact
for values below `2^53`) and keeps the low 32 bits, i.e. reduces modulo
`2^32`. -/
def legacyTimeoutConstant (ict : Nat) : Nat := roundDiv100 ict % U32

/-- The branch chain of `ctoFromOpenOptions`, parameterized by the two
locals the Go function computes first: `timeoutConstant` (tc) and
`readIntervalTimeout` (ri). Three precedence-ordered branches; the two
write fields stay at their Go zero value. Stating theorems over `tc` and
`ri` directly makes them independent of how the program computes `tc`
from the intercharacter input. -/
def ctoFromGuardValues (tc ri : Nat) : WindowsCommTimeouts :=
  if 0 < tc ∧ ri = 0 then
    { ReadIntervalTimeout := MAXDWORD
      ReadTotalTimeoutMultiplier := MAXDWORD
      ReadTotalTimeoutConstant := tc
      WriteTotalTimeoutMultiplier := 0
      WriteTotalTimeoutConstant := 0 }
  else if 0 < ri then
    { ReadIntervalTimeout := ri
      ReadTotalTimeoutMultiplier := 1
      ReadTotalTimeoutConstant := 1
      WriteTotalTimeoutMultiplier := 0
      WriteTotalTimeoutConstant := 0 }
  else
    { ReadIntervalTimeout := MAXDWORD
      ReadTotalTimeoutMultiplier := MAXDWORD
      ReadTotalTimeoutConstant := MAXDWORD - 1
      WriteTotalTimeoutMultiplier := 0
      WriteTotalTimeoutConstant := 0 }

/-- Mirrors `ctoFromOpenOptions` (the legacy translator): the two locals
`timeoutConstant` and `readIntervalTimeout := uint32(options.
MinimumReadSize)` feed the branch chain `ctoFromGuardValues`. -/
def ctoFromOpenOptions (options : OpenOptions) : WindowsCommTimeouts :=
  ctoFromGuardValues (legacyTimeoutConstant options.InterCharacterTimeout)
    (options.MinimumReadSize % U32)

/-- The record produced by the fallback (third) branch of
`ctoFromOpenOptions`. -/
def ctoFallback : WindowsCommTimeouts :=
  { ReadIntervalTimeout := MAXDWORD
    ReadTotalTimeoutMultiplier := MAXDWORD
    ReadTotalTimeoutConstant := MAXDWORD - 1
    WriteTotalTimeoutMultiplier := 0
    WriteTotalTimeoutConstant := 0 }

/-- Go `time.Duration` is an `int64` count of nanoseconds. -/
abbrev Duration := Int

/-- Go `time.Millisecond` in nanoseconds. -/
def timeMillisecond : Duration := 1000000

/-- Mirrors the Go struct `Timeouts` (timeouts.go). -/
structure Timeouts where
  ReadIntercharacter : Duration
  ReadTotal : Duration
  WriteTotal : Duration
deriving DecidableEq, Repr

/-- Mirrors `DefaultTimeouts()`: 1 ms intercharacter, 100 ms read total,
100 ms write total, in nanoseconds. -/
def DefaultTimeouts : Timeouts :=
  { ReadIntercharacter := 1000000
    ReadTotal := 100000000
    WriteTotal := 100000000 }

/-- Go duration division `d / time.Millisecond`: `int64` division, which
truncates toward zero (`Int.tdiv`). -/
def durationToMs (d : Duration) : Int := Int.tdiv d timeMillisecond

/-- The pure translation performed inside `SetTimeouts` (windows): start
from `defaultWindowsCommTimeouts` and overwrite the interval and the two
total constants with the `uint32` millisecond values of the spec. -/
def translateTimeouts (t : Timeouts) : WindowsCommTimeouts :=
  { defaultWindowsCommTimeouts with
    ReadIntervalTimeout := goUint32ofInt (durationToMs t.ReadIntercharacter)
    ReadTotalTimeoutConstant := goUint32ofInt (durationToMs t.ReadTotal)
    WriteTotalTimeoutConstant := goUint32ofInt (durationToMs t.WriteTotal) }

/-- Go windows `syscall.Handle` is a `uintptr`; modelled as `Nat` below
2^64. -/
abbrev Handle := Nat

/-- Mirrors the windows `serialPort` struct: a single handle field `fd`. -/
structure serialPort where
  fd : Handle
deriving DecidableEq, Repr

/-- A Go pointer `*serialPort`: `none` models the nil pointer. -/
abbrev PortPtr := Option serialPort

/-- The guard `p == nil || p.fd == syscall.Handle(0) || p.fd ==
syscall.InvalidHandle` shared by `Close`, `Read`, `Write` and
`SetTimeouts` (windows); short-circuit `||` never touches `fd` when `p`
is nil. -/
def goNilOrInvalid (p : PortPtr) : Bool :=
  match p with
  | none => true
  | some sp => sp.fd == 0 || sp.fd == INVALID_HANDLE

/-- Mirrors the Go error values of the package (errors.go), plus an
opaque wrapper for whatever error an OS call reports. -/
inductive GoError where
  | ErrInvalidOrNilPort
  | ErrNotImplementedOnOS
  | osError (code : Nat)
deriving DecidableEq, Repr

/-- One call issued to the handle provider (kernel32), with the arguments
the port layer passes down. -/
inductive OsCall where
  | setCommTimeouts (h : Handle) (cto : WindowsCommTimeouts)
  | readFile (h : Handle) (bufLen : Nat)
  | writeFile (h : Handle) (bufLen : Nat)
  | closeHandle (h : Handle)
  | purgeComm (h : Handle) (flags : Nat)
deriving DecidableEq, Repr

/-- Result of one Go method call: either a nil-pointer-dereference panic,
or a normal return carrying the final OS state, the trace of OS calls the
method issued (in order), and the returned value. -/
inductive Outcome (σ : Type) (α : Type) where
  | panics
  | returns (s : σ) (calls : List OsCall) (val : α)
deriving DecidableEq, Repr

/-- The handle provider (external collaborator): one response function per
OS entry point the port layer uses, threading a state of type `σ`.
`readFile`/`writeFile` also return the transferred byte count. -/
structure OsSpec (σ : Type) where
  setCommTimeouts : σ → Handle → WindowsCommTimeouts → σ × Option GoError
  readFile : σ → Handle → Nat → σ × Nat × Option GoError
  writeFile : σ → Handle → Nat → σ × Nat × Option GoError
  closeHandle : σ → Handle → σ × Option GoError
  purgeComm : σ → Handle → Nat → σ × Option GoError

/-- Mirrors `SetTimeouts` (timeouts_windows.go): invalid-handle guard,
then one `setCommTimeouts` push of the translated record. Any `fd` access
goes through the `match`, so a nil pointer in an unguarded access would
be `panics`. -/
def spSetTimeouts {σ : Type} (os : OsSpec σ) (s : σ) (p : PortPtr)
    (timeouts : Timeouts) : Outcome σ (Option GoError) :=
  if goNilOrInvalid p then .returns s [] (some .ErrInvalidOrNilPort)
  else match p with
    | none => .panics
    | some sp =>
      let cto := translateTimeouts timeouts
      let r := os.setCommTimeouts s sp.fd cto
      .returns r.1 [.setCommTimeouts sp.fd cto] r.2

/-- Mirrors `Read` (open_windows.go): invalid-handle guard, then one
`ReadFile` call; returns the transferred count and the OS error. -/
def spRead {σ : Type} (os : OsSpec σ) (s : σ) (p : PortPtr)
    (bufLen : Nat) : Outcome σ (Nat × Option GoError) :=
  if goNilOrInvalid p then .returns s [] (0, some .ErrInvalidOrNilPort)
  else match p with
    | none => .panics
    | some sp =>
      let r := os.readFile s sp.fd bufLen
      .returns r.1 [.readFile sp.fd bufLen] r.2

/-- Mirrors `Write` (open_windows.go): invalid-handle guard, then one
`WriteFile` call. -/
def spWrite {σ : Type} (os : OsSpec σ) (s : σ) (p : PortPtr)
    (bufLen : Nat) : Outcome σ (Nat × Option GoError) :=
  if goNilOrInvalid p then .returns s [] (0, some .ErrInvalidOrNilPort)
  else match p with
    | none => .panics
    | some sp =>
      let r := os.writeFile s sp.fd bufLen
      .returns r.1 [.writeFile sp.fd bufLen] r.2

/-- Mirrors `Close` (open_windows.go): invalid-handle guard, then one
`CloseHandle` call. Note the method never mutates `p.fd`. -/
def spClose {σ : Type} (os : OsSpec σ) (s : σ) (p : PortPtr) :
    Outcome σ (Option GoError) :=
  if goNilOrInvalid p then .returns s [] (some .ErrInvalidOrNilPort)
  else match p with
    | none => .panics
    | some sp =>
      let r := os.closeHandle s sp.fd
      .returns r.1 [.closeHandle sp.fd] r.2

/-- The flag word built by `purgeComm` in open_windows.go:
PURGE_RXCLEAR = 0x0008, PURGE_TXCLEAR = 0x0004, or-ed together. -/
def purgeFlags (clearRx clearTx : Bool) : Nat :=
  (if clearRx then 8 else 0) ||| (if clearTx then 4 else 0)

/-- Mirrors `PurgeBuffers` (windows file): `return purgeComm(p.fd,
clearRx, clearTx)` with NO invalid-handle guard — `p.fd` is dereferenced
unconditionally, so a nil pointer panics and any stored handle value is
passed straight to the OS. -/
def spPurgeBuffers {σ : Type} (os : OsSpec σ) (s : σ) (p : PortPtr)
    (clearRx clearTx : Bool) : Outcome σ (Option GoError) :=
  match p with
  | none => .panics
  | some sp =>
    let r := os.purgeComm s sp.fd (purgeFlags clearRx clearTx)
    .returns r.1 [.purgeComm sp.fd (purgeFlags clearRx clearTx)] r.2

/-- Mirrors `ReadWithTimeouts` (timeouts.go): `p.SetTimeouts(timeouts)`
with the error discarded, then `return p.Read(buf)`. -/
def spReadWithTimeouts {σ : Type} (os : OsSpec σ) (s : σ) (p : PortPtr)
    (bufLen : Nat) (timeouts : Timeouts) : Outcome σ (Nat × Option GoError) :=
  match spSetTimeouts os s p timeouts with
  | .panics => .panics
  | .returns s1 c1 _ =>
    match spRead os s1 p bufLen with
    | .panics => .panics
    | .returns s2 c2 v => .returns s2 (c1 ++ c2) v

/-- Mirrors `WriteWithTimeouts` (timeouts.go): `p.SetTimeouts(timeouts)`
with the error discarded, then `return p.Write(buf)`. -/
def spWriteWithTimeouts {σ : Type} (os : OsSpec σ) (s : σ) (p : PortPtr)
    (bufLen : Nat) (timeouts : Timeouts) : Outcome σ (Nat × Option GoError) :=
  match spSetTimeouts os s p timeouts with
  | .panics => .panics
  | .returns s1 c1 _ =>
    match spWrite os s1 p bufLen with
    | .panics => .panics
    | .returns s2 c2 v => .returns s2 (c1 ++ c2) v

/-- Mirrors the non-windows `SetTimeouts` (timeouts_other.go): the method
ignores its receiver and argument and returns nil. The receiver type
parameter `π` stands for the non-windows `serialPort` (a wrapped
`io.ReadWriteCloser`). -/
def otherSetTimeouts {σ π : Type} (s : σ) (_p : Option π)
    (_timeouts : Timeouts) : Outcome σ (Option GoError) :=
  .returns s [] none

/-- Mirrors the non-windows `PurgeBuffers` (purge file with `!windows`
build tag): ignores receiver and flags, returns nil. -/
def otherPurgeBuffers {σ π : Type} (s : σ) (_p : Option π)
    (_clearRx _clearTx : Bool) : Outcome σ (Option GoError) :=
  .returns s [] none

/-- A trivial handle provider over the unit state, used to evaluate the
operations at concrete inputs. -/
def trivialOS : OsSpec Unit :=
  { setCommTimeouts := fun _ _ _ => ((), none)
    readFile := fun _ _ _ => ((), 0, none)
    writeFile := fun _ _ n => ((), n, none)
    closeHandle := fun _ _ => ((), none)
    purgeComm := fun _ _ _ => ((), none) }

/-- A handle provider whose `setCommTimeouts` always fails with an OS
error while reads and writes succeed; used to exhibit the discarded
`SetTimeouts` error inside `ReadWithTimeouts`/`WriteWithTimeouts`. -/
def failingSetOS : OsSpec Unit :=
  { setCommTimeouts := fun _ _ _ => ((), some (.osError 5))
    readFile := fun _ _ _ => ((), 7, none)
    writeFile := fun _ _ n => ((), n, none)
    closeHandle := fun _ _ => ((), none)
    purgeComm := fun _ _ _ => ((), none) }

/-- A handle provider over a state recording the handles passed to
`CloseHandle`, each call succeeding; used to exhibit the behavior of a
second `Close` on an already successfully closed port. -/
def closeRecorderOS : OsSpec (List Nat) :=
  { setCommTimeouts := fun s _ _ => (s, none)
    readFile := fun s _ _ => (s, 0, none)
    writeFile := fun s _ n => (s, n, none)
    closeHandle := fun s h => (h :: s, none)
    purgeComm := fun s _ _ => (s, none) }

/-- Every `SetTimeouts` call returns normally (the nil guard runs before
any field access), with some final state, trace and error. -/
theorem spSetTimeouts_shape {σ : Type} (os : OsSpec σ) (s : σ) (p : PortPtr)
    (t : Timeouts) :
    ∃ s1 c1 e1, spSetTimeouts os s p t = .returns s1 c1 e1 := by
  by_cases h : goNilOrInvalid p = true
  · exact ⟨s, [], some .ErrInvalidOrNilPort, by simp [spSetTimeouts, h]⟩
  · cases p with
    | none => exact absurd rfl h
    | some sp =>
      exact ⟨(os.setCommTimeouts s sp.fd (translateTimeouts t)).1,
        [.setCommTimeouts sp.fd (translateTimeouts t)],
        (os.setCommTimeouts s sp.fd (translateTimeouts t)).2,
        by simp [spSetTimeouts, h]⟩

/-- Every `Read` call returns normally with some final state, trace and
(count, error) pair. -/
theorem spRead_shape {σ : Type} (os : OsSpec σ) (s : σ) (p : PortPtr)
    (bufLen : Nat) :
    ∃ s1 c1 v, spRead os s p bufLen = .returns s1 c1 v := by
  by_cases h : goNilOrInvalid p = true
  · exact ⟨s, [], (0, some .ErrInvalidOrNilPort), by simp [spRead, h]⟩
  · cases p with
    | none => exact absurd rfl h
    | some sp =>
      exact ⟨(os.readFile s sp.fd bufLen).1, [.readFile sp.fd bufLen],
        (os.readFile s sp.fd bufLen).2, by simp [spRead, h]⟩

/-- Every `Write` call returns normally with some final state, trace and
(count, error) pair. -/
theorem spWrite_shape {σ : Type} (os : OsSpec σ) (s : σ) (p : PortPtr)
    (bufLen : Nat) :
    ∃ s1 c1 v, spWrite os s p bufLen = .returns s1 c1 v := by
  by_cases h : goNilOrInvalid p = true
  · exact ⟨s, [], (0, some .ErrInvalidOrNilPort), by simp [spWrite, h]⟩
  · cases p with
    | none => exact absurd rfl h
    | some sp =>
      exact ⟨(os.writeFile s sp.fd bufLen).1, [.writeFile sp.fd bufLen],
        (os.writeFile s sp.fd bufLen).2, by simp [spWrite, h]⟩

/-- Claim C1 is false as stated: at the input pair (10, 0) we have
interCharacterTimeoutMs = 10 > 0 and minimumReadSize = 0, yet the legacy
translator does not take its first branch (round-half-up of 10/100 is 0,
failing the guard `timeoutConstant > 0`): it returns the fallback record,
whose read-total constant MAXUINT32 - 1 differs from the rounded quotient
the claim promises. -/
theorem claim1_counterexample :
    ctoFromOpenOptions ⟨10, 0⟩ = ctoFallback ∧
    roundDiv100 10 = 0 ∧
    (ctoFromOpenOptions ⟨10, 0⟩).ReadTotalTimeoutConstant ≠ roundDiv100 10 := by
  decide

/-- Claim C1 (amended): for every interCharacterTimeoutMs below 2^49 —
the region where the float64 rounding of the source provably equals exact
round-half-up, see `roundDiv100` — the first branch of the legacy
translator is taken exactly when the uint32 truncation of round-half-up
of interCharacterTimeoutMs / 100 is positive and uint32(minimumReadSize)
is zero; for every such pair it returns readIntervalTimeout = MAXUINT32,
readTotalTimeoutMultiplier = MAXUINT32 and readTotalTimeoutConstant equal
to that rounded quotient. The bound is not needed by the Lean proof; it
marks the domain on which the model is exact for the program. -/
theorem claim1_first_branch_amended (ict mrs : Nat)
    (_hb : ict < 562949953421312)
    (h1 : 0 < legacyTimeoutConstant ict) (h2 : mrs % U32 = 0) :
    ctoFromOpenOptions ⟨ict, mrs⟩ =
      { ReadIntervalTimeout := MAXDWORD
        ReadTotalTimeoutMultiplier := MAXDWORD
        ReadTotalTimeoutConstant := legacyTimeoutConstant ict
        WriteTotalTimeoutMultiplier := 0
        WriteTotalTimeoutConstant := 0 } := by
  simp [ctoFromOpenOptions, ctoFromGuardValues, h1, h2]

/-- Witness for the amended claim C1 at the documented example (100, 0):
the rounded quotient is 1 and the first branch record is produced. -/
theorem claim1_witness :
    (100 : Nat) < 562949953421312 ∧
    0 < legacyTimeoutConstant 100 ∧ (0 : Nat) % U32 = 0 ∧
    ctoFromOpenOptions ⟨100, 0⟩ =
      { ReadIntervalTimeout := MAXDWORD
        ReadTotalTimeoutMultiplier := MAXDWORD
        ReadTotalTimeoutConstant := legacyTimeoutConstant 100
        WriteTotalTimeoutMultiplier := 0
        WriteTotalTimeoutConstant := 0 } ∧
    legacyTimeoutConstant 100 = 1 :=
  ⟨by decide, by decide, by decide,
    claim1_first_branch_amended 100 0 (by decide) (by decide) (by decide),
    by decide⟩

/-- Claim C3 is false as stated: the driver parameters are uint32, so at
ReadTotal = 2^32 milliseconds (4294967296000000 ns, a valid Duration) the
translation produces ReadTotalTimeoutConstant = 0, not the 4294967296
milliseconds of the spec value as the claim promises. -/
theorem claim3_counterexample :
    durationToMs (4294967296000000 : Int) = 4294967296 ∧
    (translateTimeouts
        { ReadIntercharacter := 1000000
          ReadTotal := 4294967296000000
          WriteTotal := 100000000 }).ReadTotalTimeoutConstant = 0 ∧
    (0 : Nat) ≠ 4294967296 := by
  decide

/-- Claim C3 (amended): the translation performed by the windows
`SetTimeouts` is a pure total function whose result has
readIntervalTimeout equal to the intercharacter duration in whole
(truncated) milliseconds reduced to uint32 (modulo 2^32), the two total
constants equal to the read-total and write-total durations in
milliseconds reduced to uint32 — equal to the exact millisecond values
exactly when those fit in 32 bits — and both multipliers 0 (inherited
from the default baseline, which `SetTimeouts` never overwrites). -/
theorem claim3_translate_fields (t : Timeouts) :
    translateTimeouts t =
      { ReadIntervalTimeout := goUint32ofInt (durationToMs t.ReadIntercharacter)
        ReadTotalTimeoutMultiplier := 0
        ReadTotalTimeoutConstant := goUint32ofInt (durationToMs t.ReadTotal)
        WriteTotalTimeoutMultiplier := 0
        WriteTotalTimeoutConstant := goUint32ofInt (durationToMs t.WriteTotal) } :=
  rfl

/-- Claim C7: the pair (0, 0) yields the fallback record with
readTotalTimeoutConstant = MAXUINT32 - 1 (at intercharacter input 0 the
float computation of the source is exact, so the model is faithful
there); and for every pair of guard values the program can compute —
`tc`, the local `timeoutConstant`, and `ri`, the truncated minimum read
size — the branch chain produces the fallback record exactly when
neither the first-branch guard (`0 < tc` and `ri = 0`) nor the
second-branch guard (`0 < ri`) holds, and produces the corresponding
branch record, never the fallback branch, when one of them holds. -/
theorem claim7_fallback :
    ctoFromOpenOptions ⟨0, 0⟩ = ctoFallback ∧
    (∀ tc ri : Nat,
        ¬(0 < tc ∧ ri = 0) → ¬0 < ri →
        ctoFromGuardValues tc ri = ctoFallback) ∧
    (∀ tc ri : Nat,
        (0 < tc ∧ ri = 0) ∨ 0 < ri →
        ctoFromGuardValues tc ri =
            { ReadIntervalTimeout := MAXDWORD
              ReadTotalTimeoutMultiplier := MAXDWORD
              ReadTotalTimeoutConstant := tc
              WriteTotalTimeoutMultiplier := 0
              WriteTotalTimeoutConstant := 0 } ∨
          ctoFromGuardValues tc ri =
            { ReadIntervalTimeout := ri
              ReadTotalTimeoutMultiplier := 1
              ReadTotalTimeoutConstant := 1
              WriteTotalTimeoutMultiplier := 0
              WriteTotalTimeoutConstant := 0 }) := by
  refine ⟨by decide, ?_, ?_⟩
  · intro tc ri h1 h2
    simp [ctoFromGuardValues, ctoFallback, h1, h2]
  · intro tc ri h
    rcases h with h | h
    · left
      simp [ctoFromGuardValues, h.1, h.2]
    · right
      have hng : ¬(0 < tc ∧ ri = 0) := by
        rintro ⟨-, he⟩
        omega
      simp [ctoFromGuardValues, hng, h]

/-- Witness for claim C7 applied at guard values (0, 0), the pair the
program computes from the input (0, 0): neither guard holds, so the
fallback is produced. -/
theorem claim7_witness : ctoFromGuardValues 0 0 = ctoFallback :=
  claim7_fallback.2.1 0 0 (by decide) (by decide)

/-- Claim C8 is false as stated: at the input pair (0, 4294967296) the
first branch does not apply (the rounded constant is 0) and
minimumReadSize = 2^64 > 0, yet on the 64-bit Go uint the translator
truncates it to uint32 0 and takes the fallback branch, not the
block-until-input branch with multiplier 1. -/
theorem claim8_counterexample :
    0 < (4294967296 : Nat) ∧
    legacyTimeoutConstant 0 = 0 ∧
    ctoFromOpenOptions ⟨0, 4294967296⟩ = ctoFallback ∧
    (ctoFromOpenOptions ⟨0, 4294967296⟩).ReadTotalTimeoutMultiplier ≠ 1 := by
  decide

/-- Claim C8 (amended): for every input pair whose minimum read size is
nonzero after uint32 truncation (the first branch then never applies),
the legacy translator returns readIntervalTimeout =
uint32(minimumReadSize), readTotalTimeoutMultiplier = 1 and
readTotalTimeoutConstant = 1. -/
theorem claim8_second_branch_amended (ict mrs : Nat) (h : 0 < mrs % U32) :
    ctoFromOpenOptions ⟨ict, mrs⟩ =
      { ReadIntervalTimeout := mrs % U32
        ReadTotalTimeoutMultiplier := 1
        ReadTotalTimeoutConstant := 1
        WriteTotalTimeoutMultiplier := 0
        WriteTotalTimeoutConstant := 0 } := by
  have hng : ¬(0 < legacyTimeoutConstant ict ∧ mrs % U32 = 0) := by
    rintro ⟨-, he⟩
    omega
  simp [ctoFromOpenOptions, ctoFromGuardValues, hng, h]

/-- Witness for the amended claim C8 at the documented example (0, 4):
the result is interval 4, multiplier 1, constant 1. -/
theorem claim8_witness :
    0 < 4 % U32 ∧
    ctoFromOpenOptions ⟨0, 4⟩ =
      { ReadIntervalTimeout := 4 % U32
        ReadTotalTimeoutMultiplier := 1
        ReadTotalTimeoutConstant := 1
        WriteTotalTimeoutMultiplier := 0
        WriteTotalTimeoutConstant := 0 } :=
  ⟨by decide, claim8_second_branch_amended 0 4 (by decide)⟩

/-- Claim C2 is false as stated: `PurgeBuffers` (windows) performs no
local invalid-handle check. On a port whose handle is 0 it issues the
`PurgeComm` OS call carrying handle 0 and returns whatever the OS says
(here no error, and in particular not the local invalid-port error), and
on a nil receiver it dereferences the nil pointer and crashes. -/
theorem claim2_counterexample :
    spPurgeBuffers trivialOS () (some ⟨0⟩) true true =
      .returns () [.purgeComm 0 12] none ∧
    spPurgeBuffers trivialOS () none true true = .panics := by
  decide

/-- Claim C2 (amended): the four guarded operations `SetTimeouts`,
`Read`, `Write` and `Close` invoked on a nil port or on a port whose
handle is zero or InvalidHandle return the local invalid-port error with
an empty OS-call trace and an unchanged OS state, and never panic;
`PurgeBuffers` is the exception described by the counterexample. -/
theorem claim2_guarded_ops_amended {σ : Type} (os : OsSpec σ) (s : σ)
    (p : PortPtr) (t : Timeouts) (bufLen : Nat)
    (h : goNilOrInvalid p = true) :
    spSetTimeouts os s p t = .returns s [] (some .ErrInvalidOrNilPort) ∧
    spRead os s p bufLen = .returns s [] (0, some .ErrInvalidOrNilPort) ∧
    spWrite os s p bufLen = .returns s [] (0, some .ErrInvalidOrNilPort) ∧
    spClose os s p = .returns s [] (some .ErrInvalidOrNilPort) := by
  refine ⟨?_, ?_, ?_, ?_⟩ <;>
    simp [spSetTimeouts, spRead, spWrite, spClose, h]

/-- Witness for the amended claim C2 on a concrete port with handle 0:
all four guarded operations stop locally. -/
theorem claim2_witness :
    spSetTimeouts trivialOS () (some ⟨0⟩) DefaultTimeouts =
      .returns () [] (some .ErrInvalidOrNilPort) ∧
    spRead trivialOS () (some ⟨0⟩) 8 =
      .returns () [] (0, some .ErrInvalidOrNilPort) ∧
    spWrite trivialOS () (some ⟨0⟩) 8 =
      .returns () [] (0, some .ErrInvalidOrNilPort) ∧
    spClose trivialOS () (some ⟨0⟩) =
      .returns () [] (some .ErrInvalidOrNilPort) :=
  claim2_guarded_ops_amended trivialOS () (some ⟨0⟩) DefaultTimeouts 8
    (by decide)

/-- Claim C4: `ReadWithTimeouts` is exactly `SetTimeouts` followed by one
raw `Read`, its OS-call trace the concatenation of the two traces and its
returned value the value of the read; symmetrically `WriteWithTimeouts`
is `SetTimeouts` followed by one raw `Write`. -/
theorem claim4_with_timeouts_sequence {σ : Type} (os : OsSpec σ) (s : σ)
    (p : PortPtr) (bufLen : Nat) (t : Timeouts) :
    (∃ s1 c1 e1 s2 c2 v,
        spSetTimeouts os s p t = .returns s1 c1 e1 ∧
        spRead os s1 p bufLen = .returns s2 c2 v ∧
        spReadWithTimeouts os s p bufLen t = .returns s2 (c1 ++ c2) v) ∧
    (∃ s1 c1 e1 s2 c2 v,
        spSetTimeouts os s p t = .returns s1 c1 e1 ∧
        spWrite os s1 p bufLen = .returns s2 c2 v ∧
        spWriteWithTimeouts os s p bufLen t = .returns s2 (c1 ++ c2) v) := by
  obtain ⟨s1, c1, e1, h1⟩ := spSetTimeouts_shape os s p t
  constructor
  · obtain ⟨s2, c2, v, h2⟩ := spRead_shape os s1 p bufLen
    exact ⟨s1, c1, e1, s2, c2, v, h1, h2,
      by simp [spReadWithTimeouts, h1, h2]⟩
  · obtain ⟨s2, c2, v, h2⟩ := spWrite_shape os s1 p bufLen
    exact ⟨s1, c1, e1, s2, c2, v, h1, h2,
      by simp [spWriteWithTimeouts, h1, h2]⟩

/-- Claim C5: `SetTimeouts` returns the local invalid-port error with no
OS call and no state change exactly when the port is nil or its handle is
zero or InvalidHandle; on a valid port it issues exactly one
`SetCommTimeouts` push of the translated record and returns the OS
verdict; and the pushed record is the default baseline (interval 1 ms,
totals 100 ms, multipliers 0) with the three constant fields overwritten
from the spec. -/
theorem claim5_set_timeouts_spec {σ : Type} (os : OsSpec σ) (s : σ)
    (p : PortPtr) (t : Timeouts) :
    (spSetTimeouts os s p t = .returns s [] (some .ErrInvalidOrNilPort) ↔
        goNilOrInvalid p = true) ∧
    (∀ sp : serialPort, p = some sp → goNilOrInvalid p = false →
        spSetTimeouts os s p t =
          .returns (os.setCommTimeouts s sp.fd (translateTimeouts t)).1
            [.setCommTimeouts sp.fd (translateTimeouts t)]
            (os.setCommTimeouts s sp.fd (translateTimeouts t)).2) ∧
    translateTimeouts t =
      { defaultWindowsCommTimeouts with
        ReadIntervalTimeout := goUint32ofInt (durationToMs t.ReadIntercharacter)
        ReadTotalTimeoutConstant := goUint32ofInt (durationToMs t.ReadTotal)
        WriteTotalTimeoutConstant := goUint32ofInt (durationToMs t.WriteTotal) } := by
  refine ⟨⟨?_, ?_⟩, ?_, rfl⟩
  · intro h
    by_contra hng
    cases p with
    | none => exact hng rfl
    | some sp => simp [spSetTimeouts, hng] at h
  · intro h
    simp [spSetTimeouts, h]
  · intro sp hp h
    subst hp
    simp [spSetTimeouts, h]

/-- Witness for claim C5 on a concrete valid port (handle 3): one
`SetCommTimeouts` push of the translated default record. -/
theorem claim5_witness :
    spSetTimeouts trivialOS () (some ⟨3⟩) DefaultTimeouts =
      .returns ((trivialOS.setCommTimeouts () 3
          (translateTimeouts DefaultTimeouts)).1)
        [.setCommTimeouts 3 (translateTimeouts DefaultTimeouts)]
        ((trivialOS.setCommTimeouts () 3
          (translateTimeouts DefaultTimeouts)).2) :=
  (claim5_set_timeouts_spec trivialOS () (some ⟨3⟩) DefaultTimeouts).2.1
    ⟨3⟩ rfl (by decide)

/-- Claim C6 is false as stated: `Close` never mutates the stored handle,
so after a first successful close of the port with handle 5 (the OS state
records the closed handle and no error is returned), a second `Close` on
the same port again issues the `CloseHandle` OS call with the stale
handle 5 — an OS-level action — and here even returns no error at all. -/
theorem claim6_counterexample :
    spClose closeRecorderOS [] (some ⟨5⟩) =
      .returns [5] [.closeHandle 5] none ∧
    spClose closeRecorderOS [5] (some ⟨5⟩) =
      .returns [5, 5] [.closeHandle 5] none := by
  decide

/-- Claim C6 (amended): `Close` on a nil port, or on a port whose stored
handle is zero or InvalidHandle, returns the local invalid-port error
with no OS action and never crashes; on any other port — including one
already successfully closed, since closing leaves the stored handle
unchanged — `Close` issues the `CloseHandle` OS call on the stored handle
and returns the OS verdict. -/
theorem claim6_close_amended {σ : Type} (os : OsSpec σ) (s : σ)
    (p : PortPtr) :
    (goNilOrInvalid p = true →
        spClose os s p = .returns s [] (some .ErrInvalidOrNilPort)) ∧
    (∀ sp : serialPort, p = some sp → goNilOrInvalid p = false →
        spClose os s p =
          .returns (os.closeHandle s sp.fd).1 [.closeHandle sp.fd]
            (os.closeHandle s sp.fd).2) := by
  constructor
  · intro h
    simp [spClose, h]
  · intro sp hp h
    subst hp
    simp [spClose, h]

/-- Witness for the amended claim C6: closing a nil port yields the local
error, and closing the valid port with handle 5 issues `CloseHandle 5`. -/
theorem claim6_witness :
    spClose trivialOS () none = .returns () [] (some .ErrInvalidOrNilPort) ∧
    spClose trivialOS () (some ⟨5⟩) =
      .returns ((trivialOS.closeHandle () 5).1) [.closeHandle 5]
        ((trivialOS.closeHandle () 5).2) :=
  ⟨(claim6_close_amended trivialOS () none).1 (by decide),
    (claim6_close_amended trivialOS () (some ⟨5⟩)).2 ⟨5⟩ rfl (by decide)⟩

/-- Claim C9: on non-windows platforms `SetTimeouts` and `PurgeBuffers`
return success for every port (nil included), every timeout value and
every flag combination, with no OS call and no state change. -/
theorem claim9_other_os_noops {σ π : Type} (s : σ) (p : Option π)
    (t : Timeouts) (clearRx clearTx : Bool) :
    otherSetTimeouts s p t = Outcome.returns s [] none ∧
    otherPurgeBuffers s p clearRx clearTx = Outcome.returns s [] none :=
  ⟨rfl, rfl⟩

/-- Claim C10: when the embedded `SetTimeouts` step of
`ReadWithTimeouts` or `WriteWithTimeouts` fails with some error, the
wrapper discards that error: it still performs the raw read or write in
the state the failed call left behind and returns exactly that raw
operation result pair. -/
theorem claim10_error_discarded {σ : Type} (os : OsSpec σ) (s : σ)
    (p : PortPtr) (bufLen : Nat) (t : Timeouts) (s1 : σ)
    (c1 : List OsCall) (err : GoError)
    (h : spSetTimeouts os s p t = .returns s1 c1 (some err)) :
    (∃ s2 c2 v, spRead os s1 p bufLen = .returns s2 c2 v ∧
        spReadWithTimeouts os s p bufLen t = .returns s2 (c1 ++ c2) v) ∧
    (∃ s2 c2 v, spWrite os s1 p bufLen = .returns s2 c2 v ∧
        spWriteWithTimeouts os s p bufLen t = .returns s2 (c1 ++ c2) v) := by
  constructor
  · obtain ⟨s2, c2, v, h2⟩ := spRead_shape os s1 p bufLen
    exact ⟨s2, c2, v, h2, by simp [spReadWithTimeouts, h, h2]⟩
  · obtain ⟨s2, c2, v, h2⟩ := spWrite_shape os s1 p bufLen
    exact ⟨s2, c2, v, h2, by simp [spWriteWithTimeouts, h, h2]⟩

/-- Witness for claim C10 on a handle provider whose `SetCommTimeouts`
always fails with OS error 5: the wrappers on the valid port with
handle 3 still perform and report the raw read and write. -/
theorem claim10_witness :
    (∃ s2 c2 v, spRead failingSetOS () (some ⟨3⟩) 1 = .returns s2 c2 v ∧
        spReadWithTimeouts failingSetOS () (some ⟨3⟩) 1 DefaultTimeouts =
          .returns s2
            ([OsCall.setCommTimeouts 3 (translateTimeouts DefaultTimeouts)]
              ++ c2) v) ∧
    (∃ s2 c2 v, spWrite failingSetOS () (some ⟨3⟩) 1 = .returns s2 c2 v ∧
        spWriteWithTimeouts failingSetOS () (some ⟨3⟩) 1 DefaultTimeouts =
          .returns s2
            ([OsCall.setCommTimeouts 3 (translateTimeouts DefaultTimeouts)]
              ++ c2) v) :=
  claim10_error_discarded failingSetOS () (some ⟨3⟩) 1 DefaultTimeouts ()
    [OsCall.setCommTimeouts 3 (translateTimeouts DefaultTimeouts)]
    (.osError 5) (by decide)

end GoSerial
